import Mathlib

/-!
Shallow embedding of `src/core/freeze_logic.py` (class `FreezeTool`) from the
RoFreeze repository, together with theorems checking the specification's
claims about the freeze-toggle state machine.

Modelling conventions:
* Module availability (the `try: import ...` blocks at the top of the file)
  is an `Env` of three booleans.  A failed `pynput` import sets both the
  `keyboard` and `pynput` names to `None`, so a single flag covers both.
* Mutable object state is the structure `FreezeState`; `Option Bool` fields
  model handle attributes (`none` = Python `None`, `some b` = an object whose
  running/alive status is `b`).  Python's `if self.x:` truthiness test on a
  listener or thread object is `isSome` (stopped objects are still truthy).
* External calls (mouse moves, button presses, listener start/stop, the
  spacebar event flag, log messages) are recorded as a trace of `Effect`s in
  program order; the current pointer position is threaded as a `Point`.
* The keyboard hook callback `on_press` is embedded in the `Except PyError`
  monad so that Python attribute errors are explicit; attribute access on a
  key without a `char` attribute raises, and `hasattr` guards it.
-/

namespace RoFreeze

/-- A screen coordinate, as returned by `pyautogui.position()`. -/
abbrev Point := Int × Int

/-- Which of the three optional automation modules imported successfully
(`pyautogui`, `pynput` — which also provides `keyboard` —, and `mouse`). -/
structure Env where
  pyautogui : Bool
  pynput : Bool
  mouse : Bool
  deriving DecidableEq, Repr

/-- Environment in which all three automation modules are available. -/
def envAll : Env := ⟨true, true, true⟩

/-- The mutable attributes of a `FreezeTool` instance.
`worker_thread`, `mouse_listener` and `keyboard_listener` are `none` when the
Python attribute is `None`, and `some b` when it holds an object with
alive/running status `b`. -/
structure FreezeState where
  saved_coordinates : Option Point
  saved_coordinatesBefore : Option Point
  f3_pressed : Bool
  freeze_event : Bool
  worker_thread : Option Bool
  mouse_listener : Option Bool
  keyboard_listener : Option Bool
  running : Bool
  deriving DecidableEq, Repr

/-- The state built by `FreezeTool.__init__`. -/
def initState : FreezeState :=
  { saved_coordinates := none
    saved_coordinatesBefore := none
    f3_pressed := false
    freeze_event := false
    worker_thread := none
    mouse_listener := none
    keyboard_listener := none
    running := false }

/-- Externally observable side effects, recorded in program order. -/
inductive Effect where
  | posQuery (p : Point)
  | btnRelease (btn : String)
  | btnPress (btn : String)
  | ptrMove (p : Point)
  | tapSignalSet
  | tapSignalClear
  | suppressorStart
  | suppressorStop
  | kbStart
  | kbStop
  | logMsg (m : String)
  deriving DecidableEq, Repr

/-- A key value delivered to the `pynput` hook: either a `KeyCode` carrying a
`char` attribute (possibly `None`), or a special `Key` member (such as
`Key.f3`) that has no `char` attribute. -/
inductive Key where
  | keyChar (c : Option Char)
  | keySpecial (name : String)
  deriving DecidableEq, Repr

/-- Python exceptions that the embedded code can raise. -/
inductive PyError where
  | attributeError
  deriving DecidableEq, Repr

/-- `hasattr(key, 'char')`. -/
def keyHasCharAttr : Key → Bool
  | .keyChar _ => true
  | .keySpecial _ => false

/-- `key.char`: raises `AttributeError` on a special key. -/
def keyCharAttr : Key → Except PyError (Option Char)
  | .keyChar c => .ok c
  | .keySpecial _ => .error .attributeError

/-- The status message emitted when coordinates are saved
(`f"Saved coordinates: {self.saved_coordinates}. Press F3 to freeze."`). -/
def savedMsg (p : Point) : String :=
  "Saved coordinates: Point(x=" ++ toString p.1 ++ ", y=" ++ toString p.2 ++
    "). Press F3 to freeze."

/-- `FreezeTool.start_tool`.  Returns the new state, pointer position and the
trace of effects. -/
def startTool (env : Env) (s : FreezeState) (w : Point) :
    FreezeState × Point × List Effect :=
  if s.running then (s, w, [])
  else if env.pynput = false then
    (s, w, [.logMsg "Error: pynput.keyboard not available (headless environment?)"])
  else
    let s1 := { s with running := true, keyboard_listener := some true }
    let s2 :=
      if s1.worker_thread = some true then s1
      else { s1 with worker_thread := some true }
    (s2, w, [.kbStart,
             .logMsg "Tool started. Move mouse and press 'Q' to save coordinates."])

/-- `FreezeTool.stop_tool`. -/
def stopTool (env : Env) (s : FreezeState) (w : Point) :
    FreezeState × Point × List Effect :=
  if s.running then
    let s1 := { s with running := false, freeze_event := true }
    let kb : FreezeState × List Effect :=
      match s1.keyboard_listener with
      | some _ => ({ s1 with keyboard_listener := some false }, [.kbStop])
      | none => (s1, [])
    let s2 := { kb.1 with freeze_event := false }
    let ml : FreezeState × List Effect :=
      match s2.mouse_listener with
      | some _ => ({ s2 with mouse_listener := some false }, [.suppressorStop])
      | none => (s2, [])
    let reset : Point × List Effect :=
      if ml.1.f3_pressed ∧ env.mouse then
        match ml.1.saved_coordinatesBefore with
        | some p => (p, [.btnRelease "left", .ptrMove p])
        | none => (w, [.btnRelease "left"])
      else (w, [])
    ({ ml.1 with f3_pressed := false }, reset.1,
      [Effect.tapSignalSet] ++ kb.2 ++ [Effect.tapSignalClear] ++ ml.2 ++ reset.2 ++
        [Effect.logMsg "Tool stopped."])
  else (s, w, [])

/-- `FreezeTool.toggle_freeze`. -/
def toggleFreeze (env : Env) (s : FreezeState) (w : Point) :
    FreezeState × Point × List Effect :=
  let s0 := { s with f3_pressed := !s.f3_pressed }
  if s0.f3_pressed then
    let cap : FreezeState × List Effect :=
      if env.pyautogui then
        ({ s0 with saved_coordinatesBefore := some w }, [.posQuery w])
      else (s0, [])
    let mv : Point × List Effect :=
      if env.mouse then
        match cap.1.saved_coordinates with
        | some a => (a, [.btnRelease "left", .btnRelease "right", .ptrMove a,
                         .btnPress "left"])
        | none => (w, [.btnRelease "left", .btnRelease "right", .btnPress "left"])
      else (w, [])
    let s1 := { cap.1 with freeze_event := true }
    let lst : FreezeState × List Effect :=
      if env.pynput then
        ({ s1 with mouse_listener := some true }, [.suppressorStart])
      else (s1, [])
    (lst.1, mv.1,
      cap.2 ++ [Effect.logMsg "Freeze ENABLED"] ++ mv.2 ++ [Effect.tapSignalSet] ++
        lst.2)
  else
    let s1 := { s0 with freeze_event := false }
    let lst : FreezeState × List Effect :=
      match s1.mouse_listener with
      | some _ => ({ s1 with mouse_listener := none }, [.suppressorStop])
      | none => (s1, [])
    let mv : Point × List Effect :=
      if env.mouse then
        match lst.1.saved_coordinatesBefore with
        | some p => (p, [.btnRelease "left", .ptrMove p])
        | none => (w, [.btnRelease "left"])
      else (w, [])
    (lst.1, mv.1,
      [Effect.logMsg "Freeze DISABLED", Effect.tapSignalClear] ++ lst.2 ++ mv.2)

/-- `FreezeTool.on_press`, in the `Except` monad.  The first block sits inside
`try: ... except AttributeError: pass`; the `keyboard.Key.f3` comparison is
outside the `try` and dereferences the `keyboard` module name, which is `None`
when the import failed. -/
def onPressE (env : Env) (s : FreezeState) (w : Point) (k : Key) :
    Except PyError (FreezeState × Point × List Effect) :=
  let tryBody : Except PyError (FreezeState × List Effect) :=
    if keyHasCharAttr k then
      match keyCharAttr k with
      | .error e => .error e
      | .ok none => .ok (s, [])
      | .ok (some c) =>
        if c.toLower = 'q' ∧ s.saved_coordinates = none then
          if env.pyautogui then
            .ok ({ s with saved_coordinates := some w },
                 [.posQuery w, .logMsg (savedMsg w)])
          else
            .ok (s, [.logMsg "Error: pyautogui not available"])
        else .ok (s, [])
    else .ok (s, [])
  let afterTry : FreezeState × List Effect :=
    match tryBody with
    | .ok r => r
    | .error .attributeError => (s, [])
  if env.pynput = false then .error .attributeError
  else if k = .keySpecial "f3" ∧ afterTry.1.saved_coordinates ≠ none then
    let t := toggleFreeze env afterTry.1 w
    .ok (t.1, t.2.1, afterTry.2 ++ t.2.2)
  else .ok (afterTry.1, w, afterTry.2)

/-- External events driving the session: the GUI's start/stop clicks, a key
press delivered by the OS hook (only while the keyboard listener is running),
a physical pointer move by the user, and the worker thread observing
`running == False` and exiting. -/
inductive Act where
  | actStart
  | actStop
  | actKey (k : Key)
  | actUserMove (p : Point)
  | actWorkerExit
  deriving DecidableEq, Repr

/-- One external event applied to the session. -/
def runStep (env : Env) (s : FreezeState) (w : Point) :
    Act → FreezeState × Point × List Effect
  | .actStart => startTool env s w
  | .actStop => stopTool env s w
  | .actKey k =>
    if s.keyboard_listener = some true then
      match onPressE env s w k with
      | .ok r => r
      | .error _ => (s, w, [])
    else (s, w, [])
  | .actUserMove p => (s, p, [])
  | .actWorkerExit =>
    if s.running then (s, w, [])
    else
      match s.worker_thread with
      | some _ => ({ s with worker_thread := some false }, w, [])
      | none => (s, w, [])

/-- Run a list of events, keeping only state and pointer. -/
def runTrace (env : Env) (s : FreezeState) (w : Point) : List Act → FreezeState × Point
  | [] => (s, w)
  | a :: l =>
    let r := runStep env s w a
    runTrace env r.1 r.2.1 l

/-- Reachable session configurations: the freshly constructed tool under any
initial pointer position, closed under external events. -/
inductive Reach (env : Env) : FreezeState → Point → Prop where
  | init (w : Point) : Reach env initState w
  | step {s : FreezeState} {w : Point} (a : Act) (h : Reach env s w) :
      Reach env (runStep env s w a).1 (runStep env s w a).2.1

/-- The inductive invariant of the session state machine. -/
def Inv (env : Env) (s : FreezeState) : Prop :=
  (s.keyboard_listener = some true → env.pynput = true) ∧
  (s.running = true ↔ s.keyboard_listener = some true) ∧
  (s.f3_pressed = true → s.running = true) ∧
  (s.f3_pressed = s.freeze_event) ∧
  (s.f3_pressed = true → s.saved_coordinates ≠ none) ∧
  (s.f3_pressed = true ↔ s.mouse_listener = some true)

/-- The non-logging side effects of a trace (the spec's engage/disengage
sequences list external input actions, not status messages). -/
def sideEffects (l : List Effect) : List Effect :=
  l.filter fun e =>
    match e with
    | .logMsg _ => false
    | _ => true

/-- Synthetic mouse commands (pointer moves, button presses and releases). -/
def isMouseCmd : Effect → Bool
  | .btnPress _ => true
  | .btnRelease _ => true
  | .ptrMove _ => true
  | _ => false

/-- `occursBefore a b l` holds when some occurrence of `a` appears strictly
before an occurrence of `b` in `l`. -/
def occursBefore (a b : Effect) : List Effect → Bool
  | [] => false
  | x :: xs => if x = a then xs.contains b else occursBefore a b xs

/-- Two consecutive `toggle_freeze` calls, threading the pointer position. -/
def doubleToggle (env : Env) (s : FreezeState) (w : Point) :
    FreezeState × Point × List Effect :=
  toggleFreeze env (toggleFreeze env s w).1 (toggleFreeze env s w).2.1

/-- Events of a first session: start, capture the anchor at (100,200), stop. -/
def trFirstSession : List Act :=
  [.actStart, .actUserMove (100, 200), .actKey (.keyChar (some 'q')), .actStop]

/-- A first session followed by a restart with the pointer now at (300,400). -/
def trRestart : List Act :=
  trFirstSession ++ [.actStart, .actUserMove (300, 400)]

/-- Start, capture the anchor, and engage freeze mode. -/
def trEngage : List Act :=
  [.actStart, .actKey (.keyChar (some 'q')), .actKey (.keySpecial "f3")]

/-- Engage freeze mode, stop the tool while frozen, then restart: leaves a
stopped (but non-null) mouse-listener handle behind. -/
def trStale : List Act :=
  trEngage ++ [.actStop, .actStart]

lemma inv_init (env : Env) : Inv env initState := by
  simp [Inv, initState]

lemma inv_startTool (env : Env) (s : FreezeState) (w : Point) (h : Inv env s) :
    Inv env (startTool env s w).1 := by
  obtain ⟨i1, i2, i3, i4, i5, i6⟩ := h
  unfold startTool
  split
  · exact ⟨i1, i2, i3, i4, i5, i6⟩
  split
  · exact ⟨i1, i2, i3, i4, i5, i6⟩
  rename_i hrun hpy
  dsimp only
  split <;>
    exact ⟨fun _ => by simpa using hpy, by simp, fun _ => rfl, i4, i5, by simpa using i6⟩

lemma inv_stopTool (env : Env) (s : FreezeState) (w : Point) (h : Inv env s) :
    Inv env (stopTool env s w).1 := by
  obtain ⟨i1, i2, i3, i4, i5, i6⟩ := h
  unfold stopTool
  split
  · dsimp only
    rcases hkb : s.keyboard_listener with _ | b <;>
      rcases hml : s.mouse_listener with _ | c <;> simp [Inv, hkb, hml]
  · exact ⟨i1, i2, i3, i4, i5, i6⟩

lemma inv_toggleFreeze (env : Env) (s : FreezeState) (w : Point)
    (hpy : env.pynput = true) (hrun : s.running = true)
    (hkb : s.keyboard_listener = some true) (ha : s.saved_coordinates ≠ none) :
    Inv env (toggleFreeze env s w).1 := by
  unfold toggleFreeze
  rcases hf : s.f3_pressed with _ | _
  · -- engaging
    dsimp only
    simp only [hf, Bool.not_false, if_true]
    rcases hpga : env.pyautogui with _ | _ <;> simp_all [Inv]
  · -- disengaging
    dsimp only
    simp only [hf, Bool.not_true, if_false, Bool.false_eq_true]
    rcases hml : s.mouse_listener with _ | c <;> simp_all [Inv]

lemma onPressE_charNone (env : Env) (s : FreezeState) (w : Point)
    (hpy : env.pynput = true) :
    onPressE env s w (.keyChar none) = .ok (s, w, []) := by
  unfold onPressE
  simp [keyHasCharAttr, keyCharAttr, hpy]

lemma onPressE_charSome (env : Env) (s : FreezeState) (w : Point) (ch : Char)
    (hpy : env.pynput = true) :
    onPressE env s w (.keyChar (some ch)) =
      .ok (if ch.toLower = 'q' ∧ s.saved_coordinates = none then
             if env.pyautogui then
               ({ s with saved_coordinates := some w }, w,
                [.posQuery w, .logMsg (savedMsg w)])
             else (s, w, [.logMsg "Error: pyautogui not available"])
           else (s, w, [])) := by
  unfold onPressE
  rcases hpga : env.pyautogui with _ | _ <;>
    by_cases hq : ch.toLower = 'q' ∧ s.saved_coordinates = none <;>
      simp [keyHasCharAttr, keyCharAttr, hpy, hpga, hq]

lemma onPressE_special (env : Env) (s : FreezeState) (w : Point) (name : String)
    (hpy : env.pynput = true) :
    onPressE env s w (.keySpecial name) =
      if name = "f3" ∧ s.saved_coordinates ≠ none then .ok (toggleFreeze env s w)
      else .ok (s, w, []) := by
  unfold onPressE
  simp only [keyHasCharAttr, keyCharAttr, hpy, Bool.true_eq_false, Bool.false_eq_true,
    if_false, ite_false, Key.keySpecial.injEq]
  split <;> simp_all

lemma inv_onPress (env : Env) (s : FreezeState) (w : Point) (k : Key)
    (h : Inv env s) (hkb : s.keyboard_listener = some true)
    (r : FreezeState × Point × List Effect) (hr : onPressE env s w k = .ok r) :
    Inv env r.1 := by
  obtain ⟨i1, i2, i3, i4, i5, i6⟩ := h
  have hpy : env.pynput = true := i1 hkb
  have hrun : s.running = true := i2.mpr hkb
  rcases k with c | name
  · rcases c with _ | ch
    · rw [onPressE_charNone env s w hpy] at hr
      cases hr
      exact ⟨i1, i2, i3, i4, i5, i6⟩
    · rw [onPressE_charSome env s w ch hpy] at hr
      cases hr
      split
      · split
        · exact ⟨i1, i2, i3, i4, fun _ => by simp, i6⟩
        · exact ⟨i1, i2, i3, i4, i5, i6⟩
      · exact ⟨i1, i2, i3, i4, i5, i6⟩
  · rw [onPressE_special env s w name hpy] at hr
    split at hr
    · rename_i hcond
      cases hr
      exact inv_toggleFreeze env s w hpy hrun hkb hcond.2
    · cases hr
      exact ⟨i1, i2, i3, i4, i5, i6⟩

lemma inv_step (env : Env) (s : FreezeState) (w : Point) (a : Act) (h : Inv env s) :
    Inv env (runStep env s w a).1 := by
  cases a with
  | actStart => exact inv_startTool env s w h
  | actStop => exact inv_stopTool env s w h
  | actKey k =>
    simp only [runStep]
    split
    · rename_i hkb
      rcases hr : onPressE env s w k with e | r
      · simpa [hr] using h
      · simpa [hr] using inv_onPress env s w k h hkb r hr
    · exact h
  | actUserMove p => exact h
  | actWorkerExit =>
    obtain ⟨i1, i2, i3, i4, i5, i6⟩ := h
    simp only [runStep]
    split
    · exact ⟨i1, i2, i3, i4, i5, i6⟩
    · rcases hwt : s.worker_thread with _ | b <;>
        exact ⟨i1, i2, i3, i4, i5, i6⟩

/-- Every reachable session state satisfies the invariant. -/
theorem inv_reach {env : Env} {s : FreezeState} {w : Point} (h : Reach env s w) :
    Inv env s := by
  induction h with
  | init w => exact inv_init env
  | step a h ih => exact inv_step _ _ _ a ih

/-- States produced by running an event list from a reachable configuration
are reachable. -/
lemma reach_runTrace (env : Env) (l : List Act) :
    ∀ (s : FreezeState) (w : Point), Reach env s w →
      Reach env (runTrace env s w l).1 (runTrace env s w l).2 := by
  induction l with
  | nil => intro s w h; exact h
  | cons a l ih =>
    intro s w h
    exact ih _ _ (Reach.step a h)

lemma stopTool_saved (env : Env) (s : FreezeState) (w : Point) :
    (stopTool env s w).1.saved_coordinates = s.saved_coordinates := by
  unfold stopTool
  split
  · dsimp only
    rcases hkb : s.keyboard_listener with _ | b <;>
      rcases hml : s.mouse_listener with _ | c <;> simp [hkb, hml]
  · rfl

lemma startTool_saved (env : Env) (s : FreezeState) (w : Point) :
    (startTool env s w).1.saved_coordinates = s.saved_coordinates := by
  unfold startTool
  split
  · rfl
  split
  · rfl
  dsimp only
  split <;> rfl

lemma stopTool_frozen (env : Env) (s : FreezeState) (w b : Point)
    (hrun : s.running = true) (hkb : s.keyboard_listener = some true)
    (hml : s.mouse_listener = some true) (hf : s.f3_pressed = true)
    (hb : s.saved_coordinatesBefore = some b) (hm : env.mouse = true) :
    stopTool env s w =
      ({ s with
          running := false, freeze_event := false, f3_pressed := false,
          keyboard_listener := some false, mouse_listener := some false }, b,
       [Effect.tapSignalSet, Effect.kbStop, Effect.tapSignalClear,
        Effect.suppressorStop, Effect.btnRelease "left", Effect.ptrMove b,
        Effect.logMsg "Tool stopped."]) := by
  unfold stopTool
  simp [hrun, hkb, hml, hf, hb, hm]

lemma toggleFreeze_engage (env : Env) (s : FreezeState) (w a : Point)
    (hf : s.f3_pressed = false) (ha : s.saved_coordinates = some a)
    (hpa : env.pyautogui = true) (hm : env.mouse = true) (hpn : env.pynput = true) :
    toggleFreeze env s w =
      ({ s with
          f3_pressed := true, saved_coordinatesBefore := some w,
          freeze_event := true, mouse_listener := some true }, a,
       [Effect.posQuery w, Effect.logMsg "Freeze ENABLED", Effect.btnRelease "left",
        Effect.btnRelease "right", Effect.ptrMove a, Effect.btnPress "left",
        Effect.tapSignalSet, Effect.suppressorStart]) := by
  unfold toggleFreeze
  simp [hf, ha, hpa, hm, hpn]

lemma toggleFreeze_disengage (env : Env) (s : FreezeState) (w b : Point) (c : Bool)
    (hf : s.f3_pressed = true) (hml : s.mouse_listener = some c)
    (hb : s.saved_coordinatesBefore = some b) (hm : env.mouse = true) :
    toggleFreeze env s w =
      ({ s with f3_pressed := false, freeze_event := false, mouse_listener := none },
       b,
       [Effect.logMsg "Freeze DISABLED", Effect.tapSignalClear, Effect.suppressorStop,
        Effect.btnRelease "left", Effect.ptrMove b]) := by
  unfold toggleFreeze
  simp [hf, hml, hb, hm]

lemma toggleFreeze_fst_engage (env : Env) (s : FreezeState) (w : Point)
    (hf : s.f3_pressed = false) :
    (toggleFreeze env s w).1 =
      { s with
        f3_pressed := true, freeze_event := true,
        saved_coordinatesBefore :=
          if env.pyautogui then some w else s.saved_coordinatesBefore,
        mouse_listener := if env.pynput then some true else s.mouse_listener } := by
  unfold toggleFreeze
  rcases hpa : env.pyautogui with _ | _ <;> rcases hpn : env.pynput with _ | _ <;>
    rcases hmo : env.mouse with _ | _ <;>
      rcases ha : s.saved_coordinates with _ | a <;> simp [hf, hpa, hpn, hmo, ha]

lemma toggleFreeze_fst_disengage (env : Env) (s : FreezeState) (w : Point)
    (hf : s.f3_pressed = true) :
    (toggleFreeze env s w).1 =
      { s with f3_pressed := false, freeze_event := false, mouse_listener := none } := by
  unfold toggleFreeze
  rcases hml : s.mouse_listener with _ | c <;> rcases hmo : env.mouse with _ | _ <;>
    rcases hb : s.saved_coordinatesBefore with _ | b <;> simp [hf, hml, hmo, hb]

/-- Claim C1, counterexample: `stop_tool` does not clear `saved_coordinates`.
After start, capturing the anchor at (100,200) and stopping, the anchor is
still set; after the subsequent restart with the pointer at (300,400), the
first set-point press does not capture a fresh coordinate. -/
theorem C1_counterexample :
    (runTrace envAll initState (0, 0) trFirstSession).1.saved_coordinates
        = some (100, 200) ∧
    (runTrace envAll initState (0, 0)
        (trRestart ++ [Act.actKey (Key.keyChar (some 'q'))])).1.saved_coordinates
        = some (100, 200) := by
  constructor <;> decide

/-- Claim C1 (amended): `stop_tool` leaves `saved_coordinates` untouched, as
does `start_tool`, and once the anchor is set no key event changes it — so a
session restart does not re-arm the set-point capture. -/
theorem C1_amended (env : Env) (s : FreezeState) (w : Point) (a : Point) (k : Key) :
    (stopTool env s w).1.saved_coordinates = s.saved_coordinates ∧
    (startTool env s w).1.saved_coordinates = s.saved_coordinates ∧
    (s.saved_coordinates = some a →
      (runStep env s w (Act.actKey k)).1.saved_coordinates = some a) := by
  refine ⟨stopTool_saved env s w, startTool_saved env s w, fun ha => ?_⟩
  simp only [runStep]
  split
  · rename_i hkb
    rcases hr : onPressE env s w k with e | r
    · simpa using ha
    · have hpy : env.pynput = true := by
        by_contra hc
        have : env.pynput = false := by
          rcases hp : env.pynput with _ | _
          · rfl
          · exact absurd hp hc
        unfold onPressE at hr
        rw [this] at hr
        simp at hr
      rcases k with c | name
      · rcases c with _ | ch
        · rw [onPressE_charNone env s w hpy] at hr
          cases hr
          simpa using ha
        · rw [onPressE_charSome env s w ch hpy] at hr
          rw [ha] at hr
          simp only [reduceCtorEq, and_false, ite_false] at hr
          cases hr
          simpa using ha
      · rw [onPressE_special env s w name hpy] at hr
        split at hr
        · cases hr
          dsimp only
          rcases hf : s.f3_pressed with _ | _
          · rw [toggleFreeze_fst_engage env s w hf]
            simpa using ha
          · rw [toggleFreeze_fst_disengage env s w hf]
            simpa using ha
        · cases hr
          simpa using ha
  · exact ha

/-- Witness for `C1_amended` at the concrete post-engage session state with
anchor (3,4). -/
theorem C1_amended_witness :
    (stopTool envAll (runTrace envAll initState (3, 4) trEngage).1
        (3, 4)).1.saved_coordinates
      = (runTrace envAll initState (3, 4) trEngage).1.saved_coordinates ∧
    (startTool envAll (runTrace envAll initState (3, 4) trEngage).1
        (3, 4)).1.saved_coordinates
      = (runTrace envAll initState (3, 4) trEngage).1.saved_coordinates ∧
    (runStep envAll (runTrace envAll initState (3, 4) trEngage).1 (3, 4)
        (Act.actKey (Key.keySpecial "f3"))).1.saved_coordinates = some (3, 4) := by
  have h := C1_amended envAll (runTrace envAll initState (3, 4) trEngage).1 (3, 4)
    (3, 4) (Key.keySpecial "f3")
  exact ⟨h.1, h.2.1, h.2.2 (by decide)⟩

/-- Claim C2, counterexample: immediately after `start_tool` the session is
not frozen, yet the worker-thread handle (the tap task) is already non-null —
the handles are not non-null iff `frozen`. -/
theorem C2_counterexample :
    ∃ s w, Reach envAll s w ∧
      ¬(((s.worker_thread ≠ none) ↔ s.f3_pressed = true) ∧
        ((s.mouse_listener ≠ none) ↔ s.f3_pressed = true)) := by
  refine ⟨(runTrace envAll initState (0, 0) [Act.actStart]).1,
    (runTrace envAll initState (0, 0) [Act.actStart]).2,
    reach_runTrace envAll [Act.actStart] initState (0, 0) (Reach.init (0, 0)), ?_⟩
  decide

/-- Claim C2 (amended): in every reachable session state, `frozen` holds iff
the tap task is active (`freeze_event` set) and the suppressing mouse
listener is running; the raw handles themselves can stay non-null while
`frozen` is false (the worker thread lives for the whole session, and
`stop_tool` stops but does not null the mouse listener). -/
theorem C2_amended (env : Env) (s : FreezeState) (w : Point) (h : Reach env s w) :
    s.f3_pressed = true ↔
      s.freeze_event = true ∧ s.mouse_listener = some true := by
  obtain ⟨i1, i2, i3, i4, i5, i6⟩ := inv_reach h
  constructor
  · intro hf
    exact ⟨by rw [← i4, hf], i6.mp hf⟩
  · intro hev
    exact i6.mpr hev.2

/-- Witness for `C2_amended` at the concrete frozen state reached by
start, set-point, toggle. -/
theorem C2_amended_witness :
    (runTrace envAll initState (1, 2) trEngage).1.f3_pressed = true ↔
      (runTrace envAll initState (1, 2) trEngage).1.freeze_event = true ∧
      (runTrace envAll initState (1, 2) trEngage).1.mouse_listener = some true :=
  C2_amended envAll (runTrace envAll initState (1, 2) trEngage).1
    (runTrace envAll initState (1, 2) trEngage).2
    (reach_runTrace envAll trEngage initState (1, 2) (Reach.init (1, 2)))

/-- Claim C5: in every reachable state, `frozen` implies the anchor is set,
and a toggle-key (F3) event delivered while the anchor is unset is a complete
no-op, leaving `frozen` false. -/
theorem C5_toggle_needs_anchor (env : Env) (s : FreezeState) (w : Point)
    (h : Reach env s w) :
    (s.f3_pressed = true → s.saved_coordinates ≠ none) ∧
    (s.saved_coordinates = none →
      runStep env s w (Act.actKey (Key.keySpecial "f3")) = (s, w, []) ∧
      (runStep env s w (Act.actKey (Key.keySpecial "f3"))).1.f3_pressed = false) := by
  obtain ⟨i1, i2, i3, i4, i5, i6⟩ := inv_reach h
  refine ⟨i5, fun ha => ?_⟩
  have hstep : runStep env s w (Act.actKey (Key.keySpecial "f3")) = (s, w, []) := by
    simp only [runStep]
    split
    · rename_i hkb
      rw [onPressE_special env s w "f3" (i1 hkb)]
      simp [ha]
    · rfl
  refine ⟨hstep, ?_⟩
  rw [hstep]
  rcases hf : s.f3_pressed with _ | _
  · rfl
  · exact absurd (i5 hf) (by simp [ha])

/-- Witness for `C5_toggle_needs_anchor` at the freshly started session,
whose anchor is unset. -/
theorem C5_witness :
    runStep envAll (runTrace envAll initState (7, 7) [Act.actStart]).1
        (runTrace envAll initState (7, 7) [Act.actStart]).2
        (Act.actKey (Key.keySpecial "f3"))
      = ((runTrace envAll initState (7, 7) [Act.actStart]).1,
         (runTrace envAll initState (7, 7) [Act.actStart]).2, []) ∧
    (runStep envAll (runTrace envAll initState (7, 7) [Act.actStart]).1
        (runTrace envAll initState (7, 7) [Act.actStart]).2
        (Act.actKey (Key.keySpecial "f3"))).1.f3_pressed = false :=
  (C5_toggle_needs_anchor envAll (runTrace envAll initState (7, 7) [Act.actStart]).1
    (runTrace envAll initState (7, 7) [Act.actStart]).2
    (reach_runTrace envAll [Act.actStart] initState (7, 7) (Reach.init (7, 7)))).2
    (by decide)

/-- Claim C3: with all capabilities available, engaging from `frozen = false`
performs exactly: query the pointer into `saved_coordinatesBefore`, release
the left then the right button, move to the anchor, press the left button,
set the tap-task event, install the suppressing listener; disengaging
performs the mirror sequence: clear the tap-task event, remove the listener,
release the left button, move back to the pre-freeze point. -/
theorem C3_effect_order (env : Env) (s s2 : FreezeState) (w w2 a b : Point)
    (hpa : env.pyautogui = true) (hm : env.mouse = true) (hpn : env.pynput = true)
    (hf : s.f3_pressed = false) (ha : s.saved_coordinates = some a)
    (hf2 : s2.f3_pressed = true) (hb : s2.saved_coordinatesBefore = some b)
    (hml : s2.mouse_listener = some true) :
    sideEffects (toggleFreeze env s w).2.2 =
      [Effect.posQuery w, Effect.btnRelease "left", Effect.btnRelease "right",
       Effect.ptrMove a, Effect.btnPress "left", Effect.tapSignalSet,
       Effect.suppressorStart] ∧
    sideEffects (toggleFreeze env s2 w2).2.2 =
      [Effect.tapSignalClear, Effect.suppressorStop, Effect.btnRelease "left",
       Effect.ptrMove b] := by
  rw [toggleFreeze_engage env s w a hf ha hpa hm hpn,
    toggleFreeze_disengage env s2 w2 b true hf2 hml hb hm]
  exact ⟨rfl, rfl⟩

/-- Witness for `C3_effect_order` at concrete engage and disengage states. -/
theorem C3_witness :
    sideEffects (toggleFreeze envAll
        { initState with saved_coordinates := some (3, 4) } (9, 9)).2.2 =
      [Effect.posQuery (9, 9), Effect.btnRelease "left", Effect.btnRelease "right",
       Effect.ptrMove (3, 4), Effect.btnPress "left", Effect.tapSignalSet,
       Effect.suppressorStart] ∧
    sideEffects (toggleFreeze envAll
        { initState with
          saved_coordinates := some (3, 4), saved_coordinatesBefore := some (9, 9),
          f3_pressed := true, freeze_event := true, mouse_listener := some true }
        (3, 4)).2.2 =
      [Effect.tapSignalClear, Effect.suppressorStop, Effect.btnRelease "left",
       Effect.ptrMove (9, 9)] :=
  C3_effect_order envAll { initState with saved_coordinates := some (3, 4) }
    { initState with
      saved_coordinates := some (3, 4), saved_coordinatesBefore := some (9, 9),
      f3_pressed := true, freeze_event := true, mouse_listener := some true }
    (9, 9) (3, 4) (3, 4) (9, 9) rfl rfl rfl rfl rfl rfl rfl rfl

/-- Claim C4, counterexample: at the reachable frozen state, `stop_tool`'s
effect trace stops the keyboard listener strictly before releasing the held
button — not after, as the claim requires. -/
theorem C4_counterexample :
    ∃ s w, Reach envAll s w ∧ s.running = true ∧ s.f3_pressed = true ∧
      occursBefore (Effect.btnRelease "left") Effect.kbStop
        (stopTool envAll s w).2.2 = false ∧
      occursBefore Effect.kbStop (Effect.btnRelease "left")
        (stopTool envAll s w).2.2 = true := by
  refine ⟨(runTrace envAll initState (3, 4) trEngage).1,
    (runTrace envAll initState (3, 4) trEngage).2,
    reach_runTrace envAll trEngage initState (3, 4) (Reach.init (3, 4)),
    ?_, ?_, ?_, ?_⟩ <;> decide

/-- Claim C4 (amended): `stop_tool` from a reachable running, frozen state
releases the held left button, restores the pointer to the pre-freeze point
and leaves `running = false`, `frozen = false` — but it stops the key
listener first and performs the disengage side effects after, as the full
effect trace shows. -/
theorem C4_amended (env : Env) (s : FreezeState) (w b : Point) (h : Reach env s w)
    (hm : env.mouse = true) (hrun : s.running = true) (hf : s.f3_pressed = true)
    (hb : s.saved_coordinatesBefore = some b) :
    (stopTool env s w).1.running = false ∧
    (stopTool env s w).1.f3_pressed = false ∧
    (stopTool env s w).2.1 = b ∧
    (stopTool env s w).2.2 =
      [Effect.tapSignalSet, Effect.kbStop, Effect.tapSignalClear,
       Effect.suppressorStop, Effect.btnRelease "left", Effect.ptrMove b,
       Effect.logMsg "Tool stopped."] := by
  obtain ⟨i1, i2, i3, i4, i5, i6⟩ := inv_reach h
  rw [stopTool_frozen env s w b hrun (i2.mp hrun) (i6.mp hf) hf hb hm]
  exact ⟨rfl, rfl, rfl, rfl⟩

/-- Witness for `C4_amended` at the concrete frozen session with pre-freeze
point (3,4). -/
theorem C4_amended_witness :
    (stopTool envAll (runTrace envAll initState (3, 4) trEngage).1
        (runTrace envAll initState (3, 4) trEngage).2).1.running = false ∧
    (stopTool envAll (runTrace envAll initState (3, 4) trEngage).1
        (runTrace envAll initState (3, 4) trEngage).2).1.f3_pressed = false ∧
    (stopTool envAll (runTrace envAll initState (3, 4) trEngage).1
        (runTrace envAll initState (3, 4) trEngage).2).2.1 = (3, 4) ∧
    (stopTool envAll (runTrace envAll initState (3, 4) trEngage).1
        (runTrace envAll initState (3, 4) trEngage).2).2.2 =
      [Effect.tapSignalSet, Effect.kbStop, Effect.tapSignalClear,
       Effect.suppressorStop, Effect.btnRelease "left", Effect.ptrMove (3, 4),
       Effect.logMsg "Tool stopped."] :=
  C4_amended envAll (runTrace envAll initState (3, 4) trEngage).1
    (runTrace envAll initState (3, 4) trEngage).2 (3, 4)
    (reach_runTrace envAll trEngage initState (3, 4) (Reach.init (3, 4)))
    rfl (by decide) (by decide) (by decide)

/-- Claim C6, counterexample: after a first session captured (100,200) and the
tool was stopped and restarted, the first set-point press of the new session
(with the pointer at (300,400)) is a complete no-op — nothing is sampled, no
notification is emitted, and the anchor remains (100,200). -/
theorem C6_counterexample :
    runStep envAll (runTrace envAll initState (0, 0) trRestart).1
        (runTrace envAll initState (0, 0) trRestart).2
        (Act.actKey (Key.keyChar (some 'q')))
      = ((runTrace envAll initState (0, 0) trRestart).1, (300, 400), []) ∧
    (runTrace envAll initState (0, 0) trRestart).1.saved_coordinates
      = some (100, 200) := by
  constructor <;> decide

/-- Claim C6 (amended): a set-point press while the anchor is unset samples
the pointer into `saved_coordinates` and emits the coordinate-carrying status
message; every set-point press while the anchor is set — including the first
press after a session restart, since the anchor is never cleared — is a
no-op. -/
theorem C6_first_capture (env : Env) (s : FreezeState) (w : Point)
    (h : Reach env s w) (hkb : s.keyboard_listener = some true)
    (hpa : env.pyautogui = true) :
    (s.saved_coordinates = none →
      runStep env s w (Act.actKey (Key.keyChar (some 'q'))) =
        ({ s with saved_coordinates := some w }, w,
         [Effect.posQuery w, Effect.logMsg (savedMsg w)])) ∧
    (∀ a, s.saved_coordinates = some a →
      runStep env s w (Act.actKey (Key.keyChar (some 'q'))) = (s, w, [])) := by
  obtain ⟨i1, i2, i3, i4, i5, i6⟩ := inv_reach h
  have hpy : env.pynput = true := i1 hkb
  constructor
  · intro ha
    simp only [runStep, hkb, if_true]
    rw [onPressE_charSome env s w 'q' hpy]
    have hq : ('q'.toLower = 'q') := by decide
    simp [ha, hpa, hq, hkb]
  · intro a ha
    simp only [runStep, hkb, if_true]
    rw [onPressE_charSome env s w 'q' hpy]
    simp [ha]

/-- Witness for `C6_first_capture`: in the fresh session with the pointer at
(100,200), the first set-point press captures exactly (100,200). -/
theorem C6_witness :
    runStep envAll (runTrace envAll initState (100, 200) [Act.actStart]).1
        (runTrace envAll initState (100, 200) [Act.actStart]).2
        (Act.actKey (Key.keyChar (some 'q')))
      = ({ (runTrace envAll initState (100, 200) [Act.actStart]).1 with
           saved_coordinates := some (100, 200) }, (100, 200),
         [Effect.posQuery (100, 200), Effect.logMsg (savedMsg (100, 200))]) :=
  (C6_first_capture envAll (runTrace envAll initState (100, 200) [Act.actStart]).1
    (runTrace envAll initState (100, 200) [Act.actStart]).2
    (reach_runTrace envAll [Act.actStart] initState (100, 200)
      (Reach.init (100, 200)))
    (by decide) rfl).1 (by decide)

/-- Claim C7, counterexample: stopping the tool while frozen leaves a stopped
but non-null mouse-listener handle; from the restarted (unfrozen) session
state, toggling twice ends with the handle null — listener-handle existence
is not restored by the round trip. -/
theorem C7_counterexample :
    ∃ s w, Reach envAll s w ∧ s.f3_pressed = false ∧
      (doubleToggle envAll s w).1.mouse_listener.isSome
        ≠ s.mouse_listener.isSome := by
  refine ⟨(runTrace envAll initState (1, 2) trStale).1,
    (runTrace envAll initState (1, 2) trStale).2,
    reach_runTrace envAll trStale initState (1, 2) (Reach.init (1, 2)), ?_, ?_⟩ <;>
    decide

/-- Claim C7 (amended): from any reachable state with `frozen = false`, two
`toggle_freeze` calls restore `frozen`, the tap-task event and the worker
thread, and restore listener activity; the listener handle itself ends up
null, which equals its prior value exactly when it was null beforehand (a
stale stopped handle left by `stop_tool` is instead cleared). -/
theorem C7_double_toggle (env : Env) (s : FreezeState) (w : Point)
    (h : Reach env s w) (hf : s.f3_pressed = false) :
    (doubleToggle env s w).1.f3_pressed = s.f3_pressed ∧
    (doubleToggle env s w).1.freeze_event = s.freeze_event ∧
    (doubleToggle env s w).1.worker_thread = s.worker_thread ∧
    ((doubleToggle env s w).1.mouse_listener = some true ↔
      s.mouse_listener = some true) ∧
    (s.mouse_listener = none →
      (doubleToggle env s w).1.mouse_listener = s.mouse_listener) := by
  obtain ⟨i1, i2, i3, i4, i5, i6⟩ := inv_reach h
  have hev : s.freeze_event = false := by rw [← i4, hf]
  have hml : s.mouse_listener ≠ some true := fun hc => by
    rw [i6.mpr hc] at hf
    cases hf
  unfold doubleToggle
  rw [toggleFreeze_fst_engage env s w hf]
  rw [toggleFreeze_fst_disengage env _ _ rfl]
  refine ⟨by simp [hf], by simp [hev], by simp, ?_, fun hn => by simp [hn]⟩
  simp only [FreezeState.mouse_listener]
  constructor
  · intro hc
    cases hc
  · intro hc
    exact absurd hc hml

/-- Witness for `C7_double_toggle` at the freshly started session with the
anchor set at (1,2). -/
theorem C7_witness :
    (doubleToggle envAll
        (runTrace envAll initState (1, 2) [Act.actStart,
          Act.actKey (Key.keyChar (some 'q'))]).1
        (runTrace envAll initState (1, 2) [Act.actStart,
          Act.actKey (Key.keyChar (some 'q'))]).2).1.f3_pressed
      = (runTrace envAll initState (1, 2) [Act.actStart,
          Act.actKey (Key.keyChar (some 'q'))]).1.f3_pressed ∧
    (doubleToggle envAll
        (runTrace envAll initState (1, 2) [Act.actStart,
          Act.actKey (Key.keyChar (some 'q'))]).1
        (runTrace envAll initState (1, 2) [Act.actStart,
          Act.actKey (Key.keyChar (some 'q'))]).2).1.freeze_event
      = (runTrace envAll initState (1, 2) [Act.actStart,
          Act.actKey (Key.keyChar (some 'q'))]).1.freeze_event ∧
    (doubleToggle envAll
        (runTrace envAll initState (1, 2) [Act.actStart,
          Act.actKey (Key.keyChar (some 'q'))]).1
        (runTrace envAll initState (1, 2) [Act.actStart,
          Act.actKey (Key.keyChar (some 'q'))]).2).1.worker_thread
      = (runTrace envAll initState (1, 2) [Act.actStart,
          Act.actKey (Key.keyChar (some 'q'))]).1.worker_thread ∧
    ((doubleToggle envAll
        (runTrace envAll initState (1, 2) [Act.actStart,
          Act.actKey (Key.keyChar (some 'q'))]).1
        (runTrace envAll initState (1, 2) [Act.actStart,
          Act.actKey (Key.keyChar (some 'q'))]).2).1.mouse_listener = some true ↔
      (runTrace envAll initState (1, 2) [Act.actStart,
          Act.actKey (Key.keyChar (some 'q'))]).1.mouse_listener = some true) ∧
    ((runTrace envAll initState (1, 2) [Act.actStart,
          Act.actKey (Key.keyChar (some 'q'))]).1.mouse_listener = none →
      (doubleToggle envAll
        (runTrace envAll initState (1, 2) [Act.actStart,
          Act.actKey (Key.keyChar (some 'q'))]).1
        (runTrace envAll initState (1, 2) [Act.actStart,
          Act.actKey (Key.keyChar (some 'q'))]).2).1.mouse_listener
        = (runTrace envAll initState (1, 2) [Act.actStart,
            Act.actKey (Key.keyChar (some 'q'))]).1.mouse_listener) :=
  C7_double_toggle envAll
    (runTrace envAll initState (1, 2) [Act.actStart,
      Act.actKey (Key.keyChar (some 'q'))]).1
    (runTrace envAll initState (1, 2) [Act.actStart,
      Act.actKey (Key.keyChar (some 'q'))]).2
    (reach_runTrace envAll [Act.actStart, Act.actKey (Key.keyChar (some 'q'))]
      initState (1, 2) (Reach.init (1, 2)))
    (by decide)

/-- Claim C8: when the global keyboard hook (`pynput`) is unavailable, any
reachable state has `running = false`, and `start_tool` merely emits the
error status notification and returns, leaving the state unchanged — the
embedding is a total function, so no exception escapes. -/
theorem C8_capability_unavailable (env : Env) (s : FreezeState) (w : Point)
    (h : Reach env s w) (hpn : env.pynput = false) :
    s.running = false ∧
    startTool env s w =
      (s, w,
       [Effect.logMsg "Error: pynput.keyboard not available (headless environment?)"]) := by
  obtain ⟨i1, i2, i3, i4, i5, i6⟩ := inv_reach h
  have hrun : s.running = false := by
    rcases hr : s.running with _ | _
    · rfl
    · rw [i1 (i2.mp hr)] at hpn
      cases hpn
  refine ⟨hrun, ?_⟩
  unfold startTool
  simp [hrun, hpn]

/-- Witness for `C8_capability_unavailable` in the headless environment
(`pynput` missing) at the fresh tool state. -/
theorem C8_witness :
    initState.running = false ∧
    startTool { pyautogui := true, pynput := false, mouse := true } initState (0, 0) =
      (initState, (0, 0),
       [Effect.logMsg "Error: pynput.keyboard not available (headless environment?)"]) :=
  C8_capability_unavailable { pyautogui := true, pynput := false, mouse := true }
    initState (0, 0) (Reach.init (0, 0)) rfl

/-- Claim C9: whenever the hook exists (`pynput` available, the only way
`on_press` can be invoked), `on_press` returns normally on every key value —
char keys, char-less special keys, and keys whose `char` is `None` — and its
outcome is one of: leave the state unchanged, capture the anchor, or flip
`frozen` via `toggle_freeze`. -/
theorem C9_on_press_total (env : Env) (s : FreezeState) (w : Point) (k : Key)
    (hpn : env.pynput = true) :
    ∃ r, onPressE env s w k = Except.ok r ∧
      (r.1 = s ∨ r.1 = { s with saved_coordinates := some w } ∨
        r.1.f3_pressed = !s.f3_pressed) := by
  rcases k with c | name
  · rcases c with _ | ch
    · exact ⟨(s, w, []), onPressE_charNone env s w hpn, Or.inl rfl⟩
    · rw [onPressE_charSome env s w ch hpn]
      refine ⟨_, rfl, ?_⟩
      split
      · split
        · exact Or.inr (Or.inl rfl)
        · exact Or.inl rfl
      · exact Or.inl rfl
  · rw [onPressE_special env s w name hpn]
    split
    · refine ⟨toggleFreeze env s w, rfl, Or.inr (Or.inr ?_)⟩
      rcases hf : s.f3_pressed with _ | _
      · rw [toggleFreeze_fst_engage env s w hf]
        rfl
      · rw [toggleFreeze_fst_disengage env s w hf]
        rfl
    · exact ⟨(s, w, []), rfl, Or.inl rfl⟩

/-- Witness for `C9_on_press_total` on a char-less special key at the fresh
state. -/
theorem C9_witness :
    ∃ r, onPressE envAll initState (0, 0) (Key.keySpecial "esc") = Except.ok r ∧
      (r.1 = initState ∨
        r.1 = { initState with saved_coordinates := some (0, 0) } ∨
        r.1.f3_pressed = !initState.f3_pressed) :=
  C9_on_press_total envAll initState (0, 0) (Key.keySpecial "esc") rfl

/-- Claim C10: with the synthetic `mouse` module unavailable but the hook
present, a toggle-key event with the anchor set still flips `frozen` to true,
sets the tap-task event and installs the suppressing listener, while the
pointer is not moved and no synthetic mouse command is issued. -/
theorem C10_freeze_without_mouse (env : Env) (s : FreezeState) (w a : Point)
    (hmo : env.mouse = false) (hpn : env.pynput = true)
    (hkb : s.keyboard_listener = some true) (hf : s.f3_pressed = false)
    (ha : s.saved_coordinates = some a) :
    (runStep env s w (Act.actKey (Key.keySpecial "f3"))).1.f3_pressed = true ∧
    (runStep env s w (Act.actKey (Key.keySpecial "f3"))).1.freeze_event = true ∧
    (runStep env s w (Act.actKey (Key.keySpecial "f3"))).1.mouse_listener
      = some true ∧
    (runStep env s w (Act.actKey (Key.keySpecial "f3"))).2.1 = w ∧
    ((runStep env s w (Act.actKey (Key.keySpecial "f3"))).2.2.all
      fun e => !(isMouseCmd e)) = true := by
  have hstep :
      runStep env s w (Act.actKey (Key.keySpecial "f3")) = toggleFreeze env s w := by
    simp only [runStep, hkb, if_true]
    rw [onPressE_special env s w "f3" hpn]
    simp [ha, hkb]
  rw [hstep]
  unfold toggleFreeze
  rcases hpa : env.pyautogui with _ | _ <;> simp [hf, hmo, hpn, hpa, isMouseCmd]

/-- Witness for `C10_freeze_without_mouse` at a running session with anchor
(7,8) in an environment whose `mouse` module failed to import. -/
theorem C10_witness :
    (runStep { pyautogui := true, pynput := true, mouse := false }
        { initState with
          keyboard_listener := some true, running := true,
          worker_thread := some true, saved_coordinates := some (7, 8) }
        (5, 5) (Act.actKey (Key.keySpecial "f3"))).1.f3_pressed = true ∧
    (runStep { pyautogui := true, pynput := true, mouse := false }
        { initState with
          keyboard_listener := some true, running := true,
          worker_thread := some true, saved_coordinates := some (7, 8) }
        (5, 5) (Act.actKey (Key.keySpecial "f3"))).1.freeze_event = true ∧
    (runStep { pyautogui := true, pynput := true, mouse := false }
        { initState with
          keyboard_listener := some true, running := true,
          worker_thread := some true, saved_coordinates := some (7, 8) }
        (5, 5) (Act.actKey (Key.keySpecial "f3"))).1.mouse_listener = some true ∧
    (runStep { pyautogui := true, pynput := true, mouse := false }
        { initState with
          keyboard_listener := some true, running := true,
          worker_thread := some true, saved_coordinates := some (7, 8) }
        (5, 5) (Act.actKey (Key.keySpecial "f3"))).2.1 = (5, 5) ∧
    ((runStep { pyautogui := true, pynput := true, mouse := false }
        { initState with
          keyboard_listener := some true, running := true,
          worker_thread := some true, saved_coordinates := some (7, 8) }
        (5, 5) (Act.actKey (Key.keySpecial "f3"))).2.2.all
      fun e => !(isMouseCmd e)) = true :=
  C10_freeze_without_mouse { pyautogui := true, pynput := true, mouse := false }
    { initState with
      keyboard_listener := some true, running := true,
      worker_thread := some true, saved_coordinates := some (7, 8) }
    (5, 5) (7, 8) rfl rfl rfl rfl rfl

end RoFreeze
